import Mathlib

/-!
Shallow embedding of `showattr.py`, a diagnostic classifier that predicts how
a named-attribute access (get / set / del) on a Python object would resolve
under the descriptor protocol, returning a `(classification, location)` pair.

The embedding follows the source function by function:

* A `Value` is what a class or instance `__dict__` can store: the Python
  `None` value, a plain (non-descriptor) object, or a descriptor carrying
  `__get__` / `__set__` / `__delete__` capability flags together with the
  behaviour of invoking its `__get__` hook.
* A `ClsData` records what the source reads off a class object: its
  `__name__`, its metaclass (`type(cls)`), its `__mro__`, its `__dict__`,
  and the results of the four `getattr(cls, hook, None)` probes the source
  performs (`__getattribute__`, `__getattr__`, `__setattr__`, `__delattr__`).
  A `Hook` records the probed callable `__name__`, whether it is a
  `types.MethodType` (a user-defined method, per `isoverridemethod`), and
  what invoking it does.
* Exceptions are explicit: `PyExc.attrErr` is `AttributeError`,
  `PyExc.other c` is any other exception (with a payload `c` so that
  propagation "unchanged" is expressible).  The `try/except AttributeError`
  in the two getattr algorithms becomes `attrErrCatch`.
-/

/-- Outcome of invoking a probed hook (`__getattribute__` on the target, or a
descriptor hook `__get__`): it returns normally, raises `AttributeError`, or
raises some other exception identified by `cause`. -/
inductive HookResult where
  | ok
  | attrErr
  | otherErr (cause : Nat)
deriving DecidableEq

/-- A Python exception as distinguished by the source: `AttributeError`
(caught by the `try/except` blocks) or anything else (propagated). -/
inductive PyExc where
  | attrErr
  | other (cause : Nat)
deriving DecidableEq

/-- Results of the fallible algorithms are compared in concrete tests, so
equality of `Except` values is made decidable. -/
instance exceptDecEq {ε α : Type} [DecidableEq ε] [DecidableEq α] :
    DecidableEq (Except ε α) := fun a b =>
  match a, b with
  | .ok x, .ok y =>
    if h : x = y then isTrue (by rw [h])
    else isFalse (fun hc => h (Except.ok.inj hc))
  | .error e, .error f =>
    if h : e = f then isTrue (by rw [h])
    else isFalse (fun hc => h (Except.error.inj hc))
  | .ok _, .error _ => isFalse (fun hc => Except.noConfusion hc)
  | .error _, .ok _ => isFalse (fun hc => Except.noConfusion hc)

/-- The result of a `getattr(cls, hookname, None)` probe that found a
callable: its `__name__`, whether it is a bound user-defined method
(`isinstance(func, types.MethodType)`), and its invocation behaviour. -/
structure Hook where
  hookName : String
  isMethod : Bool
  beh : HookResult
deriving DecidableEq

/-- A value stored in a class or instance `__dict__`: the Python `None`
value, a plain object without descriptor hooks, or a descriptor with
`hasGet`/`hasSet`/`hasDelete` flags (presence of `__get__`, `__set__`,
`__delete__`) and the behaviour `onGet` of invoking its `__get__`. -/
inductive Value where
  | pynone
  | plain (tag : Nat)
  | descr (hasGet hasSet hasDelete : Bool) (onGet : HookResult)
deriving DecidableEq

/-- What the source reads off a class object: `__name__`, `type(cls)` (as an
index into the world), `__mro__` (as indices), `__dict__`, and the four
hook probes performed via the host `getattr`. -/
structure ClsData where
  name : String
  kind : Nat
  mro : List Nat
  dict : List (String × Value)
  getattributeHook : Option Hook
  getattrHook : Option Hook
  setattrHook : Option Hook
  delattrHook : Option Hook

/-- What the source reads off a non-class instance: its class, whether it has
a `__dict__` (`getattr(inst, "__dict__", None)` is not `None`), that dict,
and the result of `getattr(inst, "__name__", None)` used by `instancename`. -/
structure InstData where
  cls : Nat
  hasDict : Bool
  dict : List (String × Value)
  dunderName : Option String

/-- The class graph: class data indexed by class id. -/
structure World where
  classes : Nat → ClsData

/-- A lookup target: a class (routed by `inspect.isclass`) or an instance. -/
inductive Target where
  | cls (id : Nat)
  | inst (i : InstData)

/-- `type(obj)` of a target, as a class index. -/
def typeId (w : World) : Target → Nat
  | .cls c => (w.classes c).kind
  | .inst i => i.cls

/-- The target own `__dict__` contents. -/
def targetDict (w : World) : Target → List (String × Value)
  | .cls c => (w.classes c).dict
  | .inst i => i.dict

/-- Whether `getattr(obj, "__dict__", None)` is not `None`; classes always
have a `__dict__`. -/
def targetHasDict : Target → Bool
  | .cls _ => true
  | .inst i => i.hasDict

/-- Truthiness of `getattr(inst, "__dict__", None)`: a present, non-empty
dict. -/
def dictTruthy (w : World) (t : Target) : Bool :=
  targetHasDict t && !(targetDict w t).isEmpty

/-- `name in inst.__dict__`: a membership test, which (unlike the
`dict.get(name, None)` probes) also sees an entry whose stored value is
`None`. -/
def inDict (w : World) (t : Target) (n : String) : Bool :=
  (targetDict w t).any (fun p => p.1 == n)

/-- `instancename(inst)`: `getattr(inst, "__name__", None) or "instance"`.
For a class this is its `__name__`; a falsy (empty or absent) name yields
`"instance"`. -/
def instancename (w : World) : Target → String
  | .cls c => if (w.classes c).name = "" then "instance" else (w.classes c).name
  | .inst i =>
    match i.dunderName with
    | some s => if s = "" then "instance" else s
    | none => "instance"

/-- `d.get(n, None)`: the stored value under key `n`, or Python `None` when
the key is absent. -/
def dictGet : List (String × Value) → String → Value
  | [], _ => Value.pynone
  | p :: rest, n => if p.1 = n then p.2 else dictGet rest n

/-- `isgetdescriptor(attr)`: `hasattr(attr, "__get__")`. -/
def isgetdescriptor : Value → Bool
  | .descr hg _ _ _ => hg
  | _ => false

/-- `issetdescriptor(attr)`: `hasattr(attr, "__set__") or hasattr(attr, "__delete__")`. -/
def issetdescriptor : Value → Bool
  | .descr _ hs hd _ => hs || hd
  | _ => false

/-- `isnondatadescriptor(attr)`: a get descriptor that is not a set
descriptor. -/
def isnondatadescriptor (v : Value) : Bool :=
  isgetdescriptor v && !issetdescriptor v

/-- `isdatadescriptor(attr)`: a get descriptor that is also a set
descriptor. -/
def isdatadescriptor (v : Value) : Bool :=
  isgetdescriptor v && issetdescriptor v

/-- `isoverridemethod(func)`: `False` for `None`, else
`isinstance(func, types.MethodType)`. -/
def isoverridemethod : Option Hook → Bool
  | none => false
  | some h => h.isMethod

/-- Invoke a hook with the given behaviour; exceptions become `Except`
errors. -/
def callHook : HookResult → Except PyExc Unit
  | .ok => Except.ok ()
  | .attrErr => Except.error PyExc.attrErr
  | .otherErr c => Except.error (PyExc.other c)

/-- `attr.__get__(...)` "executed to trigger possible EXCEPTION": invoking
`__get__` on a value without that hook raises `AttributeError` (the probe
sites all guard with `isgetdescriptor`, so that branch is unreachable
there). -/
def callGet : Value → Except PyExc Unit
  | .descr true _ _ g => callHook g
  | _ => Except.error PyExc.attrErr

/-- The `if isoverridemethod(f): ... return short-circuit` pattern shared by
the four algorithms: take the hook branch when the probe found a genuine
user-defined method, otherwise continue with `rest`. -/
def overrideBranch {α : Type} (o : Option Hook) (f : Hook → α) (rest : α) : α :=
  match o with
  | some h => if h.isMethod then f h else rest
  | none => rest

/-- Step 2 of the getattr and setattr/delattr algorithms: walk the `__mro__`
and return the first value found by `c.__dict__.get(name, None)` together
with its location `c.__name__ + ".__dict__"`; `(None, no location)` when the
walk finds nothing. -/
def mroLookup (w : World) (mro : List Nat) (n : String) : Value × Option String :=
  match mro with
  | [] => (Value.pynone, none)
  | c :: rest =>
    if dictGet (w.classes c).dict n = Value.pynone then mroLookup w rest n
    else (dictGet (w.classes c).dict n,
          some ((w.classes c).name ++ ".__dict__"))

/-- Step 2 of `setattr_via_instance` / `delattr_via_instance`: walk the
`__mro__`; at the first class whose dict holds the name, return the location
when the value is a set descriptor and otherwise break (return nothing). -/
def setWalk (w : World) (mro : List Nat) (n : String) : Option String :=
  match mro with
  | [] => none
  | c :: rest =>
    if dictGet (w.classes c).dict n = Value.pynone then setWalk w rest n
    else if issetdescriptor (dictGet (w.classes c).dict n) then
      some ((w.classes c).name ++ ".__dict__")
    else none

/-- Step 4 of `getattr_via_class`: walk the own `__mro__`; at the
first class whose dict holds the name, invoke `__get__` when the value is a
get descriptor (classification `get descriptor`), else classify
`attribute`. -/
def step4walk (w : World) (mro : List Nat) (n : String) :
    Option (Except PyExc (String × String)) :=
  match mro with
  | [] => none
  | c :: rest =>
    if dictGet (w.classes c).dict n = Value.pynone then step4walk w rest n
    else if isgetdescriptor (dictGet (w.classes c).dict n) then
      some ((callGet (dictGet (w.classes c).dict n)).map
        (fun _ => ("get descriptor", (w.classes c).name ++ ".__dict__")))
    else
      some (Except.ok ("attribute", (w.classes c).name ++ ".__dict__"))

/-- Steps 7 and 8 shared by both getattr algorithms: report the `__getattr__`
hook owner when the probe found one, else `("attribute", "Not found")`. -/
def getattr_fallback (cls : ClsData) : String × String :=
  match cls.getattrHook with
  | some g => ("attribute", cls.name ++ "." ++ g.hookName)
  | none => ("attribute", "Not found")

/-- The `try/except AttributeError` wrapper of both getattr algorithms:
`AttributeError` from the body is consumed and replaced by the fallback
classification `fb`; any other exception propagates. -/
def attrErrCatch (body : Except PyExc (String × String)) (fb : String × String) :
    Except PyExc (String × String) :=
  match body with
  | Except.ok r => Except.ok r
  | Except.error PyExc.attrErr => Except.ok fb
  | Except.error (PyExc.other c) => Except.error (PyExc.other c)

/-- Steps 1-6 of `getattr_via_instance` (the body of the `try`), for
instance `t` of class `type(t)`. -/
def getattr_body (w : World) (t : Target) (n : String) :
    Except PyExc (String × String) :=
  overrideBranch (w.classes (typeId w t)).getattributeHook
    (fun h => (callHook h.beh).map
      (fun _ => ("attribute",
        (w.classes (typeId w t)).name ++ "." ++ h.hookName)))
    (if isdatadescriptor (mroLookup w (w.classes (typeId w t)).mro n).1 then
       (callGet (mroLookup w (w.classes (typeId w t)).mro n).1).map
         (fun _ => ("data descriptor",
           ((mroLookup w (w.classes (typeId w t)).mro n).2).getD ""))
     else if dictTruthy w t && inDict w t n then
       Except.ok ("attribute", instancename w t ++ ".__dict__")
     else if isnondatadescriptor (mroLookup w (w.classes (typeId w t)).mro n).1 then
       (callGet (mroLookup w (w.classes (typeId w t)).mro n).1).map
         (fun _ => ("non-data descriptor",
           ((mroLookup w (w.classes (typeId w t)).mro n).2).getD ""))
     else if (mroLookup w (w.classes (typeId w t)).mro n).1 ≠ Value.pynone then
       Except.ok ("attribute",
         ((mroLookup w (w.classes (typeId w t)).mro n).2).getD "")
     else Except.error PyExc.attrErr)

/-- `getattr_via_instance(inst, name)`. -/
def getattr_via_instance (w : World) (t : Target) (n : String) :
    Except PyExc (String × String) :=
  attrErrCatch (getattr_body w t n) (getattr_fallback (w.classes (typeId w t)))

/-- Steps 1-6 of `getattr_via_class` (the body of the `try`), for class `c`
with metaclass `type(c)`. -/
def getattr_class_body (w : World) (c : Nat) (n : String) :
    Except PyExc (String × String) :=
  overrideBranch (w.classes (w.classes c).kind).getattributeHook
    (fun h => (callHook h.beh).map
      (fun _ => ("attribute",
        (w.classes (w.classes c).kind).name ++ "." ++ h.hookName)))
    (if isdatadescriptor (mroLookup w (w.classes (w.classes c).kind).mro n).1 then
       (callGet (mroLookup w (w.classes (w.classes c).kind).mro n).1).map
         (fun _ => ("data descriptor",
           ((mroLookup w (w.classes (w.classes c).kind).mro n).2).getD ""))
     else
       match step4walk w (w.classes c).mro n with
       | some r => r
       | none =>
         if isnondatadescriptor (mroLookup w (w.classes (w.classes c).kind).mro n).1 then
           (callGet (mroLookup w (w.classes (w.classes c).kind).mro n).1).map
             (fun _ => ("non-data descriptor",
               ((mroLookup w (w.classes (w.classes c).kind).mro n).2).getD ""))
         else if (mroLookup w (w.classes (w.classes c).kind).mro n).1 ≠ Value.pynone then
           Except.ok ("attribute",
             ((mroLookup w (w.classes (w.classes c).kind).mro n).2).getD "")
         else Except.error PyExc.attrErr)

/-- `getattr_via_class(cls, name)`. -/
def getattr_via_class (w : World) (c : Nat) (n : String) :
    Except PyExc (String × String) :=
  attrErrCatch (getattr_class_body w c n)
    (getattr_fallback (w.classes (w.classes c).kind))

/-- `setattr_via_instance(inst, name)`. -/
def setattr_via_instance (w : World) (t : Target) (n : String) :
    String × String :=
  overrideBranch (w.classes (typeId w t)).setattrHook
    (fun h => ("attribute", (w.classes (typeId w t)).name ++ "." ++ h.hookName))
    (match setWalk w (w.classes (typeId w t)).mro n with
     | some loc => ("set descriptor", loc)
     | none => ("attribute", instancename w t ++ ".__dict__"))

/-- `delattr_via_instance(inst, name)`. -/
def delattr_via_instance (w : World) (t : Target) (n : String) :
    String × String :=
  overrideBranch (w.classes (typeId w t)).delattrHook
    (fun h => ("attribute", (w.classes (typeId w t)).name ++ "." ++ h.hookName))
    (match setWalk w (w.classes (typeId w t)).mro n with
     | some loc => ("set descriptor", loc)
     | none =>
       if dictTruthy w t && inDict w t n then
         ("attribute", instancename w t ++ ".__dict__")
       else ("attribute", "Not found"))

/-- `setattr_via_class(cls, name)`: the source forwards to
`setattr_via_instance`, with the class in the instance role. -/
def setattr_via_class (w : World) (c : Nat) (n : String) : String × String :=
  setattr_via_instance w (Target.cls c) n

/-- `delattr_via_class(cls, name)`: the source forwards to
`delattr_via_instance`, with the class in the instance role. -/
def delattr_via_class (w : World) (c : Nat) (n : String) : String × String :=
  delattr_via_instance w (Target.cls c) n

/-- The three precondition failures of `showattr` (its `assert` statements,
named as in the specification error taxonomy). -/
inductive ShowErr where
  | invalidTarget
  | invalidName
  | invalidOperation
deriving DecidableEq

/-- The raw arguments of `showattr`: the target together with the two facts
the asserts test about the host-level arguments — whether `obj` is a
new-style instance or class (`isnewstyle`) and whether `name` is a string
(`isinstance(name, basestring)`). -/
structure RawInput where
  obj : Target
  objIsNewStyle : Bool
  nameIsString : Bool
  name : String
  method : String

/-- `showattr(obj, name, method)`: check the three asserts in order, then
route by `inspect.isclass(obj)` and `method`, returning the classification
the source would print. -/
def showattr (w : World) (r : RawInput) :
    Except ShowErr (Except PyExc (String × String)) :=
  if !r.objIsNewStyle then Except.error ShowErr.invalidTarget
  else if !r.nameIsString then Except.error ShowErr.invalidName
  else if !(r.method == "get" || r.method == "set" || r.method == "del") then
    Except.error ShowErr.invalidOperation
  else
    match r.obj with
    | Target.cls c =>
      if r.method == "get" then Except.ok (getattr_via_class w c r.name)
      else if r.method == "set" then Except.ok (Except.ok (setattr_via_class w c r.name))
      else Except.ok (Except.ok (delattr_via_class w c r.name))
    | Target.inst _ =>
      if r.method == "get" then Except.ok (getattr_via_instance w r.obj r.name)
      else if r.method == "set" then Except.ok (Except.ok (setattr_via_instance w r.obj r.name))
      else Except.ok (Except.ok (delattr_via_instance w r.obj r.name))

/-- Replace the `__dict__` of class `k`, leaving everything else in the class
graph unchanged: the surgery used to compare a stored `None` entry with an
absent entry. -/
def updateDict (w : World) (k : Nat) (d : List (String × Value)) : World :=
  ⟨fun i => if i = k then { w.classes k with dict := d } else w.classes i⟩

/-- Two class records that agree on everything the algorithms can observe
except possibly the literal dict representation: all non-dict fields are
equal and the dicts answer every `dict.get(name, None)` probe identically. -/
structure ClsAgree (c1 c2 : ClsData) : Prop where
  nameEq : c1.name = c2.name
  kindEq : c1.kind = c2.kind
  mroEq : c1.mro = c2.mro
  gaEq : c1.getattributeHook = c2.getattributeHook
  gEq : c1.getattrHook = c2.getattrHook
  sEq : c1.setattrHook = c2.setattrHook
  dEq : c1.delattrHook = c2.delattrHook
  dictEq : ∀ m, dictGet c1.dict m = dictGet c2.dict m

/-- Worlds that agree classwise in the sense of `ClsAgree`. -/
def DictAgree (w1 w2 : World) : Prop :=
  ∀ i, ClsAgree (w1.classes i) (w2.classes i)

/-- A class record with no hooks, for building concrete class graphs. -/
def mkCls (nm : String) (k : Nat) (mro : List Nat) (d : List (String × Value)) : ClsData :=
  ⟨nm, k, mro, d, none, none, none, none⟩

/-- Class `A` whose metaclass exposes genuine user-defined override hooks for
get, set and delete, while the first linearization entry for `attr` is a
read-write (data) descriptor. -/
def wC1c : World :=
  ⟨fun i =>
    if i = 1 then
      ⟨"A", 0, [1], [("attr", Value.descr true true false HookResult.ok)],
       some ⟨"__getattribute__", true, HookResult.ok⟩, none,
       some ⟨"__setattr__", true, HookResult.ok⟩,
       some ⟨"__delattr__", true, HookResult.ok⟩⟩
    else mkCls "type" 0 [0] []⟩

/-- An instance of `wC1c` class 1 whose own dict also stores `attr`. -/
def tC1c : Target := Target.inst ⟨1, true, [("attr", Value.plain 0)], none⟩

/-- Class `A` with a read-write descriptor for `attr` and no hooks. -/
def wC1d : World :=
  ⟨fun i =>
    if i = 1 then mkCls "A" 0 [1] [("attr", Value.descr true true false HookResult.ok)]
    else mkCls "type" 0 [0] []⟩

/-- An instance of `wC1d` class 1 whose own dict also stores `attr`. -/
def tC1d : Target := Target.inst ⟨1, true, [("attr", Value.plain 5)], none⟩

/-- Class `A` with a read-only (non-data) descriptor for `attr` and no
hooks. -/
def wC2d : World :=
  ⟨fun i =>
    if i = 1 then mkCls "A" 0 [1] [("attr", Value.descr true false false HookResult.ok)]
    else mkCls "type" 0 [0] []⟩

/-- An instance of class 1 also storing `attr` in its own dict. -/
def iC2d : InstData := ⟨1, true, [("attr", Value.descr true false false HookResult.ok)], none⟩

/-- Like `wC2d` but the class additionally exposes a genuine user-defined
`__getattribute__` override. -/
def wC2c : World :=
  ⟨fun i =>
    if i = 1 then
      ⟨"A", 0, [1], [("attr", Value.descr true false false HookResult.ok)],
       some ⟨"__getattribute__", true, HookResult.ok⟩, none, none, none⟩
    else mkCls "type" 0 [0] []⟩

/-- An instance of `wC2c` class 1 also storing `attr` in its own dict. -/
def iC2c : InstData := ⟨1, true, [("attr", Value.plain 0)], none⟩

/-- Class `C` with empty dict under a hook-free metaclass `M`. -/
def wC3a : World :=
  ⟨fun i => if i = 1 then mkCls "C" 0 [1] [] else mkCls "M" 0 [0] []⟩

/-- Class `C` with empty dict whose metaclass `M` exposes a `__getattr__`
fallback hook. -/
def wC3b : World :=
  ⟨fun i =>
    if i = 1 then mkCls "C" 0 [1] []
    else ⟨"M", 0, [0], [], none, some ⟨"__getattr__", false, HookResult.ok⟩, none, none⟩⟩

/-- Class `C` with empty dict whose metaclass `M` exposes a genuine
user-defined `__getattribute__` override that returns normally. -/
def wC3c : World :=
  ⟨fun i =>
    if i = 1 then mkCls "C" 0 [1] []
    else ⟨"M", 0, [0], [], some ⟨"__getattribute__", true, HookResult.ok⟩, none, none, none⟩⟩

/-- Class `A` whose genuine `__getattribute__` override raises
`AttributeError` when invoked. -/
def wC4 : World :=
  ⟨fun i =>
    if i = 1 then
      ⟨"A", 0, [1], [], some ⟨"__getattribute__", true, HookResult.attrErr⟩, none, none, none⟩
    else mkCls "type" 0 [0] []⟩

/-- An instance of `wC4` class 1. -/
def tC4 : Target := Target.inst ⟨1, true, [], none⟩

/-- A hook-free class `A` with empty dict. -/
def wC5 : World :=
  ⟨fun i => if i = 1 then mkCls "A" 0 [1] [] else mkCls "type" 0 [0] []⟩

/-- An instance of `wC5` class 1 whose own dict is empty. -/
def tC5 : Target := Target.inst ⟨1, true, [], none⟩

/-- An instance of `wC5` class 1 whose own dict stores `attr`. -/
def tC5w : Target := Target.inst ⟨1, true, [("attr", Value.plain 3)], none⟩

/-- Class `A` with genuine `__setattr__` and `__delattr__` overrides and a
plain class attribute `attr`. -/
def wC6 : World :=
  ⟨fun i =>
    if i = 1 then
      ⟨"A", 0, [1], [("attr", Value.plain 0)], none, none,
       some ⟨"__setattr__", true, HookResult.ok⟩,
       some ⟨"__delattr__", true, HookResult.ok⟩⟩
    else mkCls "type" 0 [0] []⟩

/-- An instance of `wC6` class 1 storing `attr` in its own dict. -/
def tC6 : Target := Target.inst ⟨1, true, [("attr", Value.plain 1)], none⟩

/-- Class `C` (id 2) inheriting `attr` from its parent `P` (id 1), with a
hook-free metaclass `M` (id 0) whose chain does not mention `attr`. -/
def wC7 : World :=
  ⟨fun i =>
    if i = 1 then mkCls "P" 0 [1] [("attr", Value.plain 7)]
    else if i = 2 then mkCls "C" 0 [2, 1] []
    else mkCls "M" 0 [0] []⟩

/-- A world of hook-free classes used for the precondition checks. -/
def wC9 : World := ⟨fun _ => mkCls "M" 0 [0] []⟩

/-- A call whose target is not a new-style participant. -/
def rC9a : RawInput := ⟨Target.cls 0, false, true, "x", "get"⟩

/-- A call whose name argument is not a string. -/
def rC9b : RawInput := ⟨Target.cls 0, true, false, "x", "get"⟩

/-- A call whose method is not one of get / set / del. -/
def rC9c : RawInput := ⟨Target.cls 0, true, true, "x", "frobnicate"⟩

/-- Class `C` whose own dict binds `attr` explicitly to the Python `None`
value, under a hook-free metaclass. -/
def wC10n : World :=
  ⟨fun i => if i = 1 then mkCls "C" 0 [1] [("attr", Value.pynone)] else mkCls "M" 0 [0] []⟩

/-- Like `wC10n` but with `attr` absent from the dict of `C`. -/
def wC10a : World :=
  ⟨fun i => if i = 1 then mkCls "C" 0 [1] [] else mkCls "M" 0 [0] []⟩

/-- A valid Python identifier, following the spec words rather than the
source: section 6 postulates that `name` must be a valid identifier string,
but the source only asserts `isinstance(name, basestring)` and performs no
identifier-validity check.  This definition exists solely to compare the
postulated precondition with what the code actually tests. -/
def isPyIdent (s : String) : Bool :=
  match s.data with
  | [] => false
  | ch :: rest => (ch.isAlpha || ch = '_') && rest.all (fun d => d.isAlphanum || d = '_')

/-- A call whose name argument is a string but not a valid identifier. -/
def rC9id : RawInput := ⟨Target.cls 0, true, true, "", "get"⟩

/-- Hook-free class `A` whose first linearization entry for `attr` is a
data descriptor whose get-hook raises a non-missing exception (cause 3),
and whose entry for `attr2` is a data descriptor whose get-hook raises
missing. -/
def wC4d : World :=
  ⟨fun i =>
    if i = 1 then
      mkCls "A" 0 [1]
        [("attr", Value.descr true true false (HookResult.otherErr 3)),
         ("attr2", Value.descr true true false HookResult.attrErr)]
    else mkCls "type" 0 [0] []⟩

/-- An instance of `wC4d` class 1. -/
def tC4d : Target := Target.inst ⟨1, true, [], none⟩

theorem overrideBranch_not {α : Type} (o : Option Hook) (f : Hook → α) (r : α)
    (h : isoverridemethod o = false) : overrideBranch o f r = r := by
  cases o with
  | none => rfl
  | some k =>
    simp only [isoverridemethod] at h
    simp [overrideBranch, h]

theorem overrideBranch_method {α : Type} (k : Hook) (f : Hook → α) (r : α)
    (h : k.isMethod = true) : overrideBranch (some k) f r = f k := by
  simp [overrideBranch, h]

theorem mroLookup_absent (w : World) (n : String) :
    ∀ mro : List Nat, (∀ c ∈ mro, dictGet (w.classes c).dict n = Value.pynone) →
      mroLookup w mro n = (Value.pynone, none)
  | [], _ => rfl
  | c :: rest, h => by
    simp only [mroLookup]
    rw [if_pos (h c (by simp))]
    exact mroLookup_absent w n rest (fun k hk => h k (by simp [hk]))

theorem step4walk_absent (w : World) (n : String) :
    ∀ mro : List Nat, (∀ c ∈ mro, dictGet (w.classes c).dict n = Value.pynone) →
      step4walk w mro n = none
  | [], _ => rfl
  | c :: rest, h => by
    simp only [step4walk]
    rw [if_pos (h c (by simp))]
    exact step4walk_absent w n rest (fun k hk => h k (by simp [hk]))

theorem setWalk_of_set (w : World) (n : String) :
    ∀ (mro : List Nat) (v : Value) (loc : String),
      mroLookup w mro n = (v, some loc) → issetdescriptor v = true →
      setWalk w mro n = some loc
  | [], v, loc, h, _ => by simp [mroLookup] at h
  | c :: rest, v, loc, h, hs => by
    simp only [mroLookup, setWalk] at *
    by_cases hp : dictGet (w.classes c).dict n = Value.pynone
    · rw [if_pos hp] at h ⊢
      exact setWalk_of_set w n rest v loc h hs
    · rw [if_neg hp] at h ⊢
      simp only [Prod.mk.injEq, Option.some.injEq] at h
      rw [h.1, if_pos hs]
      exact congrArg some h.2

theorem setWalk_of_notset (w : World) (n : String) :
    ∀ (mro : List Nat) (v : Value) (lo : Option String),
      mroLookup w mro n = (v, lo) → issetdescriptor v = false →
      setWalk w mro n = none
  | [], _, _, _, _ => rfl
  | c :: rest, v, lo, h, hs => by
    simp only [mroLookup, setWalk] at *
    by_cases hp : dictGet (w.classes c).dict n = Value.pynone
    · rw [if_pos hp] at h ⊢
      exact setWalk_of_notset w n rest v lo h hs
    · rw [if_neg hp] at h ⊢
      simp only [Prod.mk.injEq] at h
      rw [h.1, if_neg (by rw [hs]; exact Bool.false_ne_true)]

theorem step4walk_of_get (w : World) (n : String) :
    ∀ (mro : List Nat) (v : Value) (loc : String),
      mroLookup w mro n = (v, some loc) → isgetdescriptor v = true →
      step4walk w mro n =
        some ((callGet v).map (fun _ => ("get descriptor", loc)))
  | [], v, loc, h, _ => by simp [mroLookup] at h
  | c :: rest, v, loc, h, hg => by
    simp only [mroLookup, step4walk] at *
    by_cases hp : dictGet (w.classes c).dict n = Value.pynone
    · rw [if_pos hp] at h ⊢
      exact step4walk_of_get w n rest v loc h hg
    · rw [if_neg hp] at h ⊢
      simp only [Prod.mk.injEq, Option.some.injEq] at h
      rw [h.1, if_pos hg]
      simp only [h.2]

theorem data_set (v : Value) (h : isdatadescriptor v = true) :
    issetdescriptor v = true := by
  simp only [isdatadescriptor, Bool.and_eq_true] at h
  exact h.2

theorem nondata_not_data (v : Value) (h : isnondatadescriptor v = true) :
    isdatadescriptor v = false := by
  simp only [isnondatadescriptor, Bool.and_eq_true, Bool.not_eq_true'] at h
  simp [isdatadescriptor, h.1, h.2]

theorem any_ne_isEmpty {α : Type} (l : List α) (f : α → Bool) (h : l.any f = true) :
    l.isEmpty = false := by
  cases l with
  | nil => simp at h
  | cons a t => rfl

theorem attrErrCatch_not_attrErr (body : Except PyExc (String × String))
    (fb : String × String) : attrErrCatch body fb ≠ Except.error PyExc.attrErr := by
  cases body with
  | ok r => simp [attrErrCatch]
  | error e =>
    cases e with
    | attrErr => simp [attrErrCatch]
    | other c => simp [attrErrCatch]

theorem dictGet_not_mem (n : String) :
    ∀ d : List (String × Value), (∀ p ∈ d, p.1 ≠ n) → dictGet d n = Value.pynone
  | [], _ => rfl
  | p :: rest, h => by
    simp only [dictGet]
    rw [if_neg (h p (by simp)), dictGet_not_mem n rest (fun q hq => h q (by simp [hq]))]

theorem dictGet_splice (n : String) (d2 : List (String × Value))
    (h2 : ∀ p ∈ d2, p.1 ≠ n) :
    ∀ (d1 : List (String × Value)) (m : String),
      dictGet (d1 ++ (n, Value.pynone) :: d2) m = dictGet (d1 ++ d2) m
  | [], m => by
    by_cases hm : n = m
    · subst hm
      simp [dictGet, dictGet_not_mem n d2 h2]
    · simp [dictGet, hm]
  | p :: d1, m => by
    simp only [List.cons_append, dictGet, List.append_eq]
    rw [dictGet_splice n d2 h2 d1 m]

theorem updateDict_agree (w : World) (k : Nat) (dA dB : List (String × Value))
    (hd : ∀ m, dictGet dA m = dictGet dB m) :
    DictAgree (updateDict w k dA) (updateDict w k dB) := by
  intro i
  by_cases hik : i = k
  · subst hik
    refine ⟨?_, ?_, ?_, ?_, ?_, ?_, ?_, ?_⟩ <;> simp [updateDict, hd]
  · refine ⟨?_, ?_, ?_, ?_, ?_, ?_, ?_, ?_⟩ <;> simp [updateDict, hik]

theorem mroLookup_agree {w1 w2 : World} (h : DictAgree w1 w2) :
    ∀ (mro : List Nat) (n : String), mroLookup w1 mro n = mroLookup w2 mro n
  | [], _ => rfl
  | c :: rest, n => by
    simp only [mroLookup]
    rw [(h c).dictEq n, (h c).nameEq, mroLookup_agree h rest n]

theorem setWalk_agree {w1 w2 : World} (h : DictAgree w1 w2) :
    ∀ (mro : List Nat) (n : String), setWalk w1 mro n = setWalk w2 mro n
  | [], _ => rfl
  | c :: rest, n => by
    simp only [setWalk]
    rw [(h c).dictEq n, (h c).nameEq, setWalk_agree h rest n]

theorem step4walk_agree {w1 w2 : World} (h : DictAgree w1 w2) :
    ∀ (mro : List Nat) (n : String), step4walk w1 mro n = step4walk w2 mro n
  | [], _ => rfl
  | c :: rest, n => by
    simp only [step4walk]
    rw [(h c).dictEq n, (h c).nameEq, step4walk_agree h rest n]

theorem getattr_fallback_agree {c1 c2 : ClsData} (h : ClsAgree c1 c2) :
    getattr_fallback c1 = getattr_fallback c2 := by
  unfold getattr_fallback
  rw [h.gEq, h.nameEq]

theorem typeId_agree {w1 w2 : World} (h : DictAgree w1 w2) (t : Target) :
    typeId w1 t = typeId w2 t := by
  cases t with
  | cls c => exact (h c).kindEq
  | inst i => rfl

theorem instancename_agree {w1 w2 : World} (h : DictAgree w1 w2) (t : Target) :
    instancename w1 t = instancename w2 t := by
  cases t with
  | cls c => simp [instancename, (h c).nameEq]
  | inst i => rfl

theorem getattr_via_class_agree {w1 w2 : World} (h : DictAgree w1 w2)
    (c : Nat) (n : String) :
    getattr_via_class w1 c n = getattr_via_class w2 c n := by
  unfold getattr_via_class getattr_class_body
  simp only [(h c).kindEq, (h c).mroEq]
  simp only [(h ((w2.classes c).kind)).gaEq, (h ((w2.classes c).kind)).nameEq,
    (h ((w2.classes c).kind)).mroEq, mroLookup_agree h, step4walk_agree h,
    getattr_fallback_agree (h ((w2.classes c).kind))]

theorem setattr_via_instance_agree {w1 w2 : World} (h : DictAgree w1 w2)
    (t : Target) (n : String) :
    setattr_via_instance w1 t n = setattr_via_instance w2 t n := by
  unfold setattr_via_instance
  simp only [typeId_agree h t]
  simp only [(h (typeId w2 t)).sEq, (h (typeId w2 t)).nameEq,
    (h (typeId w2 t)).mroEq, setWalk_agree h, instancename_agree h t]

theorem getattr_via_instance_agree {w1 w2 : World} (h : DictAgree w1 w2)
    (i : InstData) (n : String) :
    getattr_via_instance w1 (Target.inst i) n =
      getattr_via_instance w2 (Target.inst i) n := by
  unfold getattr_via_instance getattr_body
  simp only [typeId, dictTruthy, targetDict, targetHasDict, inDict, instancename]
  simp only [(h i.cls).gaEq, (h i.cls).nameEq, (h i.cls).mroEq,
    mroLookup_agree h, getattr_fallback_agree (h i.cls)]

theorem delattr_via_instance_agree {w1 w2 : World} (h : DictAgree w1 w2)
    (i : InstData) (n : String) :
    delattr_via_instance w1 (Target.inst i) n =
      delattr_via_instance w2 (Target.inst i) n := by
  unfold delattr_via_instance
  simp only [typeId, dictTruthy, targetDict, targetHasDict, inDict, instancename]
  simp only [(h i.cls).dEq, (h i.cls).nameEq, (h i.cls).mroEq, setWalk_agree h]

/-- C1 counterexample: in `wC1c` the name `attr` resolves to a read-write
(data) descriptor in the first class of the linearization of `type(I)`, yet
because the class also exposes genuine user-defined override hooks, the
read does not invoke the descriptor get-hook and does not classify
`data descriptor`, and write/delete do not classify `set descriptor` —
refuting the claim as stated. -/
theorem C1_counterexample :
    mroLookup wC1c (wC1c.classes (typeId wC1c tC1c)).mro "attr"
      = (Value.descr true true false HookResult.ok, some "A.__dict__") ∧
    getattr_via_instance wC1c tC1c "attr"
      = Except.ok ("attribute", "A.__getattribute__") ∧
    getattr_via_instance wC1c tC1c "attr"
      ≠ Except.ok ("data descriptor", "A.__dict__") ∧
    setattr_via_instance wC1c tC1c "attr" = ("attribute", "A.__setattr__") ∧
    setattr_via_instance wC1c tC1c "attr" ≠ ("set descriptor", "A.__dict__") ∧
    delattr_via_instance wC1c tC1c "attr" = ("attribute", "A.__delattr__") := by
  decide

/-- C1 (amended): when the first linearization entry of `type(I)` for `n` is
a read-write (data) accessor and `type(I)` exposes no genuine override hook
for the operation, then: a read dispatches through the accessor get-hook —
classifying `data descriptor` at the accessor class location when the hook
returns, falling to the fallback step when it raises missing, and
propagating any other failure — and write/delete classify `set descriptor`
at that location; in every case the own storage of `I` (quantified
arbitrarily inside `t`) is never consulted. -/
theorem C1_data_descriptor_dominates (w : World) (t : Target) (n : String)
    (v : Value) (loc : String)
    (hfound : mroLookup w (w.classes (typeId w t)).mro n = (v, some loc))
    (hdata : isdatadescriptor v = true) :
    (isoverridemethod (w.classes (typeId w t)).getattributeHook = false →
      getattr_via_instance w t n =
        attrErrCatch ((callGet v).map (fun _ => ("data descriptor", loc)))
          (getattr_fallback (w.classes (typeId w t)))) ∧
    (isoverridemethod (w.classes (typeId w t)).setattrHook = false →
      setattr_via_instance w t n = ("set descriptor", loc)) ∧
    (isoverridemethod (w.classes (typeId w t)).delattrHook = false →
      delattr_via_instance w t n = ("set descriptor", loc)) := by
  refine ⟨?_, ?_, ?_⟩
  · intro hov
    unfold getattr_via_instance getattr_body
    rw [overrideBranch_not _ _ _ hov, hfound]
    simp [hdata]
  · intro hov
    unfold setattr_via_instance
    rw [overrideBranch_not _ _ _ hov,
      setWalk_of_set w n _ v loc hfound (data_set v hdata)]
  · intro hov
    unfold delattr_via_instance
    rw [overrideBranch_not _ _ _ hov,
      setWalk_of_set w n _ v loc hfound (data_set v hdata)]

/-- C1 witness: in the hook-free world `wC1d` the read-write descriptor
dominates the instance own storage for all three operations. -/
theorem C1_witness :
    getattr_via_instance wC1d tC1d "attr"
      = Except.ok ("data descriptor", "A.__dict__") ∧
    setattr_via_instance wC1d tC1d "attr" = ("set descriptor", "A.__dict__") ∧
    delattr_via_instance wC1d tC1d "attr" = ("set descriptor", "A.__dict__") := by
  have h := C1_data_descriptor_dominates wC1d tC1d "attr"
    (Value.descr true true false HookResult.ok) "A.__dict__" (by decide) (by decide)
  refine ⟨?_, h.2.1 (by decide), h.2.2 (by decide)⟩
  rw [h.1 (by decide)]
  decide

/-- C2 counterexample: in `wC2c` the first linearization entry for `attr` is
a read-only (non-data) accessor and the instance own dict also holds
`attr`, yet the read classifies at the genuine `__getattribute__` override
of the class, not at the instance storage — refuting the claim as
stated. -/
theorem C2_counterexample :
    mroLookup wC2c (wC2c.classes iC2c.cls).mro "attr"
      = (Value.descr true false false HookResult.ok, some "A.__dict__") ∧
    inDict wC2c (Target.inst iC2c) "attr" = true ∧
    getattr_via_instance wC2c (Target.inst iC2c) "attr"
      = Except.ok ("attribute", "A.__getattribute__") ∧
    getattr_via_instance wC2c (Target.inst iC2c) "attr"
      ≠ Except.ok ("attribute", "instance.__dict__") := by
  decide

/-- C2 (amended): when `type(I)` exposes no genuine `__getattribute__`
override, the first linearization entry for `n` is a read-only (non-data)
accessor, and the own dict of instance `I` contains `n`, the read
classifies `attribute` at the instance own storage; the accessor get-hook
(whose behaviour is arbitrary inside `v`) is not invoked. -/
theorem C2_instance_storage_beats_nondata (w : World) (i : InstData) (n : String)
    (v : Value) (lo : Option String)
    (hov : isoverridemethod (w.classes i.cls).getattributeHook = false)
    (hfound : mroLookup w (w.classes i.cls).mro n = (v, lo))
    (hnd : isnondatadescriptor v = true)
    (hdct : i.hasDict = true)
    (hmem : inDict w (Target.inst i) n = true) :
    getattr_via_instance w (Target.inst i) n =
      Except.ok ("attribute", instancename w (Target.inst i) ++ ".__dict__") := by
  unfold getattr_via_instance getattr_body
  have ht : typeId w (Target.inst i) = i.cls := rfl
  rw [ht, overrideBranch_not _ _ _ hov, hfound]
  have hmem2 : (i.dict).any (fun p => p.1 == n) = true := hmem
  have hdt : dictTruthy w (Target.inst i) = true := by
    simp [dictTruthy, targetHasDict, targetDict, hdct, any_ne_isEmpty _ _ hmem2]
  simp [nondata_not_data v hnd, hdt, hmem, attrErrCatch]

/-- C2 witness: the documented asymmetry in the hook-free world `wC2d`. -/
theorem C2_witness :
    getattr_via_instance wC2d (Target.inst iC2d) "attr"
      = Except.ok ("attribute", "instance.__dict__") := by
  have h := C2_instance_storage_beats_nondata wC2d iC2d "attr"
    (Value.descr true false false HookResult.ok) (some "A.__dict__")
    (by decide) (by decide) (by decide) (by decide) (by decide)
  rw [h]
  decide

/-- C3 counterexample: in `wC3c` the name `x` is absent from the entire
linearization of `C` and of its metakind `M`, `M` has no `__getattr__`
fallback hook, yet the classification is at the genuine `__getattribute__`
override of `M`, not `("attribute", "Not found")` — refuting the claim as
stated. -/
theorem C3_counterexample :
    (∀ k ∈ (wC3c.classes (wC3c.classes 1).kind).mro,
      dictGet (wC3c.classes k).dict "x" = Value.pynone) ∧
    (∀ k ∈ (wC3c.classes 1).mro,
      dictGet (wC3c.classes k).dict "x" = Value.pynone) ∧
    (wC3c.classes (wC3c.classes 1).kind).getattrHook = none ∧
    getattr_via_class wC3c 1 "x" = Except.ok ("attribute", "M.__getattribute__") ∧
    getattr_via_class wC3c 1 "x" ≠ Except.ok ("attribute", "Not found") := by
  decide

/-- C3 (amended): for a class `C` and name `n` absent from the entire
linearization of `C` and from the entire linearization of its metakind `M`,
provided `M` exposes no genuine `__getattribute__` override: the class-read
classifies `("attribute", "Not found")` when `M` has no `__getattr__`
fallback hook, and `("attribute", M-name.hook-name)` when it has one. -/
theorem C3_absent_everywhere (w : World) (c : Nat) (n : String)
    (hov : isoverridemethod (w.classes (w.classes c).kind).getattributeHook = false)
    (habsM : ∀ k ∈ (w.classes (w.classes c).kind).mro,
      dictGet (w.classes k).dict n = Value.pynone)
    (habsC : ∀ k ∈ (w.classes c).mro,
      dictGet (w.classes k).dict n = Value.pynone) :
    ((w.classes (w.classes c).kind).getattrHook = none →
      getattr_via_class w c n = Except.ok ("attribute", "Not found")) ∧
    (∀ g, (w.classes (w.classes c).kind).getattrHook = some g →
      getattr_via_class w c n =
        Except.ok ("attribute",
          (w.classes (w.classes c).kind).name ++ "." ++ g.hookName)) := by
  have hbody : getattr_class_body w c n = Except.error PyExc.attrErr := by
    unfold getattr_class_body
    rw [overrideBranch_not _ _ _ hov, mroLookup_absent w n _ habsM,
      step4walk_absent w n _ habsC]
    simp [isdatadescriptor, isnondatadescriptor, isgetdescriptor, issetdescriptor]
  constructor
  · intro hg
    unfold getattr_via_class
    rw [hbody]
    simp [attrErrCatch, getattr_fallback, hg]
  · intro g hg
    unfold getattr_via_class
    rw [hbody]
    simp [attrErrCatch, getattr_fallback, hg]

/-- C3 witness: both branches of the fallback step, at concrete class
graphs with the name absent everywhere. -/
theorem C3_witness :
    getattr_via_class wC3a 1 "x" = Except.ok ("attribute", "Not found") ∧
    getattr_via_class wC3b 1 "x" = Except.ok ("attribute", "M.__getattr__") := by
  constructor
  · exact (C3_absent_everywhere wC3a 1 "x" (by decide) (by decide) (by decide)).1
      (by decide)
  · have h := (C3_absent_everywhere wC3b 1 "x" (by decide) (by decide) (by decide)).2
      ⟨"__getattr__", false, HookResult.ok⟩ (by decide)
    rw [h]
    decide

/-- C4: failure semantics of both read algorithms, covering every probed
hook — the override-get hook and the accessor get-hook at each probe site
of the source (instance-read step 3 data descriptor and step 5 non-data
descriptor; class-read step 3 data descriptor, step 4 inherited get
descriptor, and step 5 non-data descriptor): a probe that signals
attribute-missing is consumed and the algorithm terminates at the fallback
classification rather than a raised failure (conjuncts 1-2: no read result
is ever the missing failure), while a probe failure other than missing
propagates to the caller with its cause unchanged. -/
theorem C4_missing_is_consumed (w : World) (t : Target) (c : Nat) (n : String) :
    (getattr_via_instance w t n ≠ Except.error PyExc.attrErr) ∧
    (getattr_via_class w c n ≠ Except.error PyExc.attrErr) ∧
    (∀ h, (w.classes (typeId w t)).getattributeHook = some h → h.isMethod = true →
      h.beh = HookResult.attrErr →
      getattr_via_instance w t n =
        Except.ok (getattr_fallback (w.classes (typeId w t)))) ∧
    (∀ h cz, (w.classes (typeId w t)).getattributeHook = some h → h.isMethod = true →
      h.beh = HookResult.otherErr cz →
      getattr_via_instance w t n = Except.error (PyExc.other cz)) ∧
    (∀ h, (w.classes (w.classes c).kind).getattributeHook = some h →
      h.isMethod = true → h.beh = HookResult.attrErr →
      getattr_via_class w c n =
        Except.ok (getattr_fallback (w.classes (w.classes c).kind))) ∧
    (∀ h cz, (w.classes (w.classes c).kind).getattributeHook = some h →
      h.isMethod = true → h.beh = HookResult.otherErr cz →
      getattr_via_class w c n = Except.error (PyExc.other cz)) ∧
    (∀ v lo, isoverridemethod (w.classes (typeId w t)).getattributeHook = false →
      mroLookup w (w.classes (typeId w t)).mro n = (v, lo) →
      isdatadescriptor v = true →
      (callGet v = Except.error PyExc.attrErr →
        getattr_via_instance w t n =
          Except.ok (getattr_fallback (w.classes (typeId w t)))) ∧
      (∀ cz, callGet v = Except.error (PyExc.other cz) →
        getattr_via_instance w t n = Except.error (PyExc.other cz))) ∧
    (∀ v lo, isoverridemethod (w.classes (typeId w t)).getattributeHook = false →
      mroLookup w (w.classes (typeId w t)).mro n = (v, lo) →
      isnondatadescriptor v = true →
      (dictTruthy w t && inDict w t n) = false →
      (callGet v = Except.error PyExc.attrErr →
        getattr_via_instance w t n =
          Except.ok (getattr_fallback (w.classes (typeId w t)))) ∧
      (∀ cz, callGet v = Except.error (PyExc.other cz) →
        getattr_via_instance w t n = Except.error (PyExc.other cz))) ∧
    (∀ v lo, isoverridemethod (w.classes (w.classes c).kind).getattributeHook = false →
      mroLookup w (w.classes (w.classes c).kind).mro n = (v, lo) →
      isdatadescriptor v = true →
      (callGet v = Except.error PyExc.attrErr →
        getattr_via_class w c n =
          Except.ok (getattr_fallback (w.classes (w.classes c).kind))) ∧
      (∀ cz, callGet v = Except.error (PyExc.other cz) →
        getattr_via_class w c n = Except.error (PyExc.other cz))) ∧
    (∀ v loc, isoverridemethod (w.classes (w.classes c).kind).getattributeHook = false →
      isdatadescriptor (mroLookup w (w.classes (w.classes c).kind).mro n).1 = false →
      mroLookup w (w.classes c).mro n = (v, some loc) →
      isgetdescriptor v = true →
      (callGet v = Except.error PyExc.attrErr →
        getattr_via_class w c n =
          Except.ok (getattr_fallback (w.classes (w.classes c).kind))) ∧
      (∀ cz, callGet v = Except.error (PyExc.other cz) →
        getattr_via_class w c n = Except.error (PyExc.other cz))) ∧
    (∀ v lo, isoverridemethod (w.classes (w.classes c).kind).getattributeHook = false →
      mroLookup w (w.classes (w.classes c).kind).mro n = (v, lo) →
      isnondatadescriptor v = true →
      step4walk w (w.classes c).mro n = none →
      (callGet v = Except.error PyExc.attrErr →
        getattr_via_class w c n =
          Except.ok (getattr_fallback (w.classes (w.classes c).kind))) ∧
      (∀ cz, callGet v = Except.error (PyExc.other cz) →
        getattr_via_class w c n = Except.error (PyExc.other cz))) := by
  refine ⟨attrErrCatch_not_attrErr _ _, attrErrCatch_not_attrErr _ _,
    ?_, ?_, ?_, ?_, ?_, ?_, ?_, ?_, ?_⟩
  · intro h hh hm hb
    unfold getattr_via_instance getattr_body
    rw [hh, overrideBranch_method _ _ _ hm, hb]
    simp [callHook, attrErrCatch, Except.map]
  · intro h cz hh hm hb
    unfold getattr_via_instance getattr_body
    rw [hh, overrideBranch_method _ _ _ hm, hb]
    simp [callHook, attrErrCatch, Except.map]
  · intro h hh hm hb
    unfold getattr_via_class getattr_class_body
    rw [hh, overrideBranch_method _ _ _ hm, hb]
    simp [callHook, attrErrCatch, Except.map]
  · intro h cz hh hm hb
    unfold getattr_via_class getattr_class_body
    rw [hh, overrideBranch_method _ _ _ hm, hb]
    simp [callHook, attrErrCatch, Except.map]
  · intro v lo hov hfound hdata
    constructor
    · intro hmiss
      unfold getattr_via_instance getattr_body
      rw [overrideBranch_not _ _ _ hov, hfound]
      simp [hdata, hmiss, attrErrCatch, Except.map]
    · intro cz hoth
      unfold getattr_via_instance getattr_body
      rw [overrideBranch_not _ _ _ hov, hfound]
      simp [hdata, hoth, attrErrCatch, Except.map]
  · intro v lo hov hfound hnd hdm
    constructor
    · intro hmiss
      unfold getattr_via_instance getattr_body
      rw [overrideBranch_not _ _ _ hov, hfound]
      simp [nondata_not_data v hnd, hnd, hdm, hmiss, attrErrCatch, Except.map]
    · intro cz hoth
      unfold getattr_via_instance getattr_body
      rw [overrideBranch_not _ _ _ hov, hfound]
      simp [nondata_not_data v hnd, hnd, hdm, hoth, attrErrCatch, Except.map]
  · intro v lo hov hfound hdata
    constructor
    · intro hmiss
      unfold getattr_via_class getattr_class_body
      rw [overrideBranch_not _ _ _ hov, hfound]
      simp [hdata, hmiss, attrErrCatch, Except.map]
    · intro cz hoth
      unfold getattr_via_class getattr_class_body
      rw [overrideBranch_not _ _ _ hov, hfound]
      simp [hdata, hoth, attrErrCatch, Except.map]
  · intro v loc hov hnotdata hfound4 hget
    have hs4 := step4walk_of_get w n _ v loc hfound4 hget
    constructor
    · intro hmiss
      unfold getattr_via_class getattr_class_body
      rw [overrideBranch_not _ _ _ hov, hs4]
      simp [hnotdata, hmiss, attrErrCatch, Except.map]
    · intro cz hoth
      unfold getattr_via_class getattr_class_body
      rw [overrideBranch_not _ _ _ hov, hs4]
      simp [hnotdata, hoth, attrErrCatch, Except.map]
  · intro v lo hov hfoundM hnd hs4
    constructor
    · intro hmiss
      unfold getattr_via_class getattr_class_body
      rw [overrideBranch_not _ _ _ hov, hfoundM, hs4]
      simp [nondata_not_data v hnd, hnd, hmiss, attrErrCatch, Except.map]
    · intro cz hoth
      unfold getattr_via_class getattr_class_body
      rw [overrideBranch_not _ _ _ hov, hfoundM, hs4]
      simp [nondata_not_data v hnd, hnd, hoth, attrErrCatch, Except.map]

/-- C4 witness: a genuine override-get hook raising missing in `wC4` lands
on the final `("attribute", "Not found")` classification instead of
propagating; a data-descriptor get-hook raising a non-missing failure in
`wC4d` propagates its cause unchanged, and one raising missing lands on
the fallback classification. -/
theorem C4_witness :
    getattr_via_instance wC4 tC4 "x" = Except.ok ("attribute", "Not found") ∧
    getattr_via_instance wC4d tC4d "attr" = Except.error (PyExc.other 3) ∧
    getattr_via_instance wC4d tC4d "attr2" = Except.ok ("attribute", "Not found") := by
  refine ⟨?_, ?_, ?_⟩
  · have h := (C4_missing_is_consumed wC4 tC4 0 "x").2.2.1
      ⟨"__getattribute__", true, HookResult.attrErr⟩ rfl rfl rfl
    rw [h]
    decide
  · exact ((C4_missing_is_consumed wC4d tC4d 0 "attr").2.2.2.2.2.2.1
      (Value.descr true true false (HookResult.otherErr 3)) (some "A.__dict__")
      rfl (by decide) (by decide)).2 3 rfl
  · have h := ((C4_missing_is_consumed wC4d tC4d 0 "attr2").2.2.2.2.2.2.1
      (Value.descr true true false HookResult.attrErr) (some "A.__dict__")
      rfl (by decide) (by decide)).1 rfl
    rw [h]
    decide

/-- C5 counterexample: in `wC5` class `A` has no override-delete hook and no
class in the linearization mentions `attr`, yet deleting `attr` on an
instance whose own dict lacks it classifies `("attribute", "Not found")`,
not the instance own attribute map — the delete algorithm has a fourth
step the claim omits. -/
theorem C5_counterexample :
    isoverridemethod (wC5.classes (typeId wC5 tC5)).delattrHook = false ∧
    mroLookup wC5 (wC5.classes (typeId wC5 tC5)).mro "attr"
      = (Value.pynone, none) ∧
    delattr_via_instance wC5 tC5 "attr" = ("attribute", "Not found") ∧
    delattr_via_instance wC5 tC5 "attr" ≠ ("attribute", "instance.__dict__") := by
  decide

/-- C5 (amended): when the class of `I` has no genuine override-delete hook
and the first linearization entry holding `n` (if any) is not a set
descriptor, the delete classification falls through to the instance layer:
it reports the instance own attribute map when the instance has a dict
containing `n`, and `("attribute", "Not found")` otherwise. -/
theorem C5_delete_falls_through (w : World) (t : Target) (n : String)
    (v : Value) (lo : Option String)
    (hov : isoverridemethod (w.classes (typeId w t)).delattrHook = false)
    (hfound : mroLookup w (w.classes (typeId w t)).mro n = (v, lo))
    (hns : issetdescriptor v = false) :
    delattr_via_instance w t n =
      if dictTruthy w t && inDict w t n then
        ("attribute", instancename w t ++ ".__dict__")
      else ("attribute", "Not found") := by
  unfold delattr_via_instance
  rw [overrideBranch_not _ _ _ hov, setWalk_of_notset w n _ v lo hfound hns]

/-- C5 witness: with `attr` in the instance own dict the fall-through step
does report the instance own attribute map. -/
theorem C5_witness :
    delattr_via_instance wC5 tC5w "attr" = ("attribute", "instance.__dict__") := by
  have h := C5_delete_falls_through wC5 tC5w "attr" Value.pynone none
    rfl (by decide) rfl
  rw [h]
  decide

/-- C6: a genuine user-defined override-set hook short-circuits the write
classification to `("attribute", class-name.hook-name)`, and likewise
override-delete for delete; the conclusion holds for every world, target
and name with the hook present, so no stored value and no linearization
entry can affect it. -/
theorem C6_override_write_delete (w : World) (t : Target) (n : String) :
    (∀ h, (w.classes (typeId w t)).setattrHook = some h → h.isMethod = true →
      setattr_via_instance w t n =
        ("attribute", (w.classes (typeId w t)).name ++ "." ++ h.hookName)) ∧
    (∀ h, (w.classes (typeId w t)).delattrHook = some h → h.isMethod = true →
      delattr_via_instance w t n =
        ("attribute", (w.classes (typeId w t)).name ++ "." ++ h.hookName)) := by
  constructor
  · intro h hh hm
    unfold setattr_via_instance
    rw [hh, overrideBranch_method _ _ _ hm]
  · intro h hh hm
    unfold delattr_via_instance
    rw [hh, overrideBranch_method _ _ _ hm]

/-- C6 witness: genuine `__setattr__` / `__delattr__` overrides in `wC6`
short-circuit even though `attr` is stored both on the class and on the
instance. -/
theorem C6_witness :
    setattr_via_instance wC6 tC6 "attr" = ("attribute", "A.__setattr__") ∧
    delattr_via_instance wC6 tC6 "attr" = ("attribute", "A.__delattr__") := by
  have h := C6_override_write_delete wC6 tC6 "attr"
  constructor
  · rw [h.1 ⟨"__setattr__", true, HookResult.ok⟩ rfl rfl]
    decide
  · rw [h.2 ⟨"__delattr__", true, HookResult.ok⟩ rfl rfl]
    decide

/-- C7 counterexample: reading `attr` on class 2 of `wC7` through the
class-read algorithm finds the inherited plain attribute in the own
linearization of the class, while running the instance-read algorithm with
the class in the instance role (its metakind as the class) finds nothing
— classifying on a class does not reuse the instance algorithm for
read. -/
theorem C7_counterexample :
    getattr_via_class wC7 2 "attr" = Except.ok ("attribute", "P.__dict__") ∧
    getattr_via_instance wC7 (Target.cls 2) "attr"
      = Except.ok ("attribute", "Not found") ∧
    getattr_via_class wC7 2 "attr"
      ≠ getattr_via_instance wC7 (Target.cls 2) "attr" := by
  decide

/-- C7 (amended): for write and delete the class-level classification is
literally the instance algorithm applied to the class with its metakind in
the class role; for read the two algorithms genuinely differ at the
own-storage step. -/
theorem C7_class_as_instance (w : World) (c : Nat) (n : String) :
    setattr_via_class w c n = setattr_via_instance w (Target.cls c) n ∧
    delattr_via_class w c n = delattr_via_instance w (Target.cls c) n :=
  ⟨rfl, rfl⟩

/-- C8: the four capability predicates are total functions (hence pure and
exception-free in the model) satisfying the advertised algebra, and the
absent value — the Python `None` returned by a failed `dict.get` probe —
satisfies none of them. -/
theorem C8_capability_predicates (v : Value) (hg hs hd : Bool) (g : HookResult) :
    isnondatadescriptor v = (isgetdescriptor v && !issetdescriptor v) ∧
    isdatadescriptor v = (isgetdescriptor v && issetdescriptor v) ∧
    issetdescriptor (Value.descr hg hs hd g) = (hs || hd) ∧
    isgetdescriptor (Value.descr hg hs hd g) = hg ∧
    isgetdescriptor Value.pynone = false ∧
    issetdescriptor Value.pynone = false ∧
    isnondatadescriptor Value.pynone = false ∧
    isdatadescriptor Value.pynone = false :=
  ⟨rfl, rfl, rfl, rfl, rfl, rfl, rfl, rfl⟩

/-- C9 counterexample: the empty string is not a valid identifier, yet with
a valid target and operation the call does not fail with the name
precondition error — it runs the full class-read and returns a
classification — because the source only asserts
`isinstance(name, basestring)`, never identifier validity. -/
theorem C9_counterexample :
    isPyIdent "" = false ∧
    rC9id.nameIsString = true ∧
    showattr wC9 rC9id = Except.ok (Except.ok ("attribute", "Not found")) ∧
    showattr wC9 rC9id ≠ Except.error ShowErr.invalidName := by
  decide

/-- C9 (amended): the three precondition checks of `showattr` fire in
order before anything else — target participation, then that the name is a
string (only `isinstance(name, basestring)`, not identifier validity as the
claim stated), then that the operation is one of get / set / del; each
error conclusion holds for every world `w`, so no hook is invoked and no
resolution step runs before the failure; and once the three checks pass,
no precondition error can occur whatever the content of the name string. -/
theorem C9_precondition_errors (w : World) (r : RawInput) :
    (r.objIsNewStyle = false → showattr w r = Except.error ShowErr.invalidTarget) ∧
    (r.objIsNewStyle = true → r.nameIsString = false →
      showattr w r = Except.error ShowErr.invalidName) ∧
    (r.objIsNewStyle = true → r.nameIsString = true →
      (r.method == "get" || r.method == "set" || r.method == "del") = false →
      showattr w r = Except.error ShowErr.invalidOperation) ∧
    (r.objIsNewStyle = true → r.nameIsString = true →
      (r.method == "get" || r.method == "set" || r.method == "del") = true →
      ∀ e, showattr w r ≠ Except.error e) := by
  refine ⟨?_, ?_, ?_, ?_⟩
  · intro h1
    simp [showattr, h1]
  · intro h1 h2
    simp [showattr, h1, h2]
  · intro h1 h2 h3
    simp [showattr, h1, h2, h3]
  · intro h1 h2 h3 e
    unfold showattr
    rw [h1, h2, h3]
    cases r.obj with
    | cls c =>
      by_cases hg : r.method == "get" <;> by_cases hs : r.method == "set" <;>
        simp [hg, hs]
    | inst i =>
      by_cases hg : r.method == "get" <;> by_cases hs : r.method == "set" <;>
        simp [hg, hs]

/-- C9 witness: the three precondition failures at concrete invalid inputs,
and a valid call with a non-identifier name string passing the name
check. -/
theorem C9_witness :
    showattr wC9 rC9a = Except.error ShowErr.invalidTarget ∧
    showattr wC9 rC9b = Except.error ShowErr.invalidName ∧
    showattr wC9 rC9c = Except.error ShowErr.invalidOperation ∧
    showattr wC9 rC9id ≠ Except.error ShowErr.invalidName := by
  refine ⟨(C9_precondition_errors wC9 rC9a).1 rfl,
    (C9_precondition_errors wC9 rC9b).2.1 rfl rfl,
    (C9_precondition_errors wC9 rC9c).2.2.1 rfl rfl (by decide),
    (C9_precondition_errors wC9 rC9id).2.2.2 rfl rfl (by decide)
      ShowErr.invalidName⟩

/-- C10 counterexample: binding `attr` explicitly to the Python `None` value
in the own dict of class `C` is visible to the membership probe of the
delete algorithm when the target is the class itself: the entry is reported
at the own-storage location, while the truly absent entry yields
`("attribute", "Not found")` — so a `None`-valued class attribute is not
always indistinguishable from an absent one. -/
theorem C10_counterexample :
    dictGet (wC10n.classes 1).dict "attr" = dictGet (wC10a.classes 1).dict "attr" ∧
    delattr_via_class wC10n 1 "attr" = ("attribute", "C.__dict__") ∧
    delattr_via_class wC10a 1 "attr" = ("attribute", "Not found") ∧
    delattr_via_class wC10n 1 "attr" ≠ delattr_via_class wC10a 1 "attr" := by
  decide

/-- C10 (amended): in every probe performed through `dict.get(name, None)` —
the linearization walks of all four algorithms and the class-read step-4
walk — a class attribute stored as `None` is indistinguishable from an
absent one: splicing a `(n, None)` entry anywhere into the dict of any
class (with no other entry for `n` after it) leaves class-read unchanged
for every class, write unchanged for every target, and instance-read and
instance-delete unchanged for every instance target.  (Only the own-dict
membership test of read/delete step 3-4, applied when the target is that
very class, can see the difference — the counterexample.) -/
theorem C10_stored_none_vs_absent (w : World) (k : Nat) (n : String)
    (d1 d2 : List (String × Value)) (h2 : ∀ p ∈ d2, p.1 ≠ n) :
    (∀ c m, getattr_via_class (updateDict w k (d1 ++ (n, Value.pynone) :: d2)) c m =
            getattr_via_class (updateDict w k (d1 ++ d2)) c m) ∧
    (∀ t m, setattr_via_instance (updateDict w k (d1 ++ (n, Value.pynone) :: d2)) t m =
            setattr_via_instance (updateDict w k (d1 ++ d2)) t m) ∧
    (∀ i m, getattr_via_instance (updateDict w k (d1 ++ (n, Value.pynone) :: d2))
              (Target.inst i) m =
            getattr_via_instance (updateDict w k (d1 ++ d2)) (Target.inst i) m) ∧
    (∀ i m, delattr_via_instance (updateDict w k (d1 ++ (n, Value.pynone) :: d2))
              (Target.inst i) m =
            delattr_via_instance (updateDict w k (d1 ++ d2)) (Target.inst i) m) := by
  have ha := updateDict_agree w k _ _ (fun m => dictGet_splice n d2 h2 d1 m)
  exact ⟨fun c m => getattr_via_class_agree ha c m,
    fun t m => setattr_via_instance_agree ha t m,
    fun i m => getattr_via_instance_agree ha i m,
    fun i m => delattr_via_instance_agree ha i m⟩

/-- C10 witness: the splice theorem applied to the concrete graph `wC10a`,
comparing class-read with a `None`-bound `attr` against the absent one. -/
theorem C10_witness :
    getattr_via_class (updateDict wC10a 1 ([] ++ ("attr", Value.pynone) :: [])) 1 "attr" =
      getattr_via_class (updateDict wC10a 1 ([] ++ [])) 1 "attr" := by
  exact (C10_stored_none_vs_absent wC10a 1 "attr" [] [] (by simp)).1 1 "attr"
